import Mathlib

/-!
Verification of the authentication/authorization core of a small FastAPI
backend (`app/auth.py`): password strength validation, password
verification, JWT issuance/verification, and role-gated access control.

The Python source is embedded shallowly:
  * Python dicts holding JWT claims become association lists
    (`Claims`); `dict.get` is `lookupClaim`, `dict.update` with a
    one-key dict is `updateClaim`.
  * The wall clock (`datetime.utcnow()`) is an explicit `now : Int`
    parameter measured in Unix seconds; `timedelta` values are seconds.
  * An encoded JWT string is modelled abstractly: it is either a
    well-formed triple of claims, signing secret and algorithm, or a
    malformed string.  `jose.jwt.encode`/`jose.jwt.decode` are modelled
    on that representation; `decode` verifies the signature (secret and
    algorithm must match) and the `exp` claim against `now`, raising
    (returning `Except.error`) on failure, exactly the checks the
    library performs on the claim sets this service ever issues.
  * Python exceptions are `Except`; a `try/except` that returns `None`
    maps `Except` to `Option`.
  * FastAPI dependency-injected collaborators (the DB session) become
    explicit function parameters: the user lookup performed by
    `get_current_user` is a parameter `findUserById`.
-/

set_option autoImplicit false

namespace AuthApp

/-- A JSON value stored in a JWT claim set.  The service only ever
stores strings (`sub`, `role`) and integers (`exp`), so those two
constructors suffice. -/
inductive ClaimValue where
  | str (s : String)
  | num (n : Int)
  deriving DecidableEq, Repr

/-- A JWT payload: a Python dict from claim names to values, embedded as
an association list looked up front-to-back. -/
abbrev Claims := List (String × ClaimValue)

/-- `payload.get(k)`: first value bound to `k`, or `none`. -/
def lookupClaim (c : Claims) (k : String) : Option ClaimValue :=
  match c with
  | [] => none
  | (k2, v) :: rest => if k2 = k then some v else lookupClaim rest k

/-- `d.update({k: v})` on a Python dict: overwrite the binding of `k`
if present, otherwise append it. -/
def updateClaim (c : Claims) (k : String) (v : ClaimValue) : Claims :=
  match c with
  | [] => [(k, v)]
  | (k2, v2) :: rest =>
    if k2 = k then (k, v) :: rest else (k2, v2) :: updateClaim rest k v

/-- `SECRET_KEY = os.getenv("SECRET_KEY", "yoursecretkey")` — the
documented default, fixed for the process lifetime. -/
def SECRET_KEY : String := "yoursecretkey"

/-- `ALGORITHM = os.getenv("ALGORITHM", "HS256")`. -/
def ALGORITHM : String := "HS256"

/-- `ACCESS_TOKEN_EXPIRE_MINUTES = 30`. -/
def ACCESS_TOKEN_EXPIRE_MINUTES : Int := 30

/-- `timedelta(minutes=m)`, in seconds. -/
def timedeltaMinutes (m : Int) : Int := m * 60

/-! ## Credential Manager: password strength (`validate_password_strength`) -/

/-- The fixed special-character class of the regex
`[!@#$%^&*()_+\-=\[\]{};\':"\\|,.<>\/?]` in `validate_password_strength`.
`Char.ofNat` spells the quote, apostrophe, backslash and brace
characters. -/
def specialChars : List Char :=
  ['!', '@', '#', '$', '%', '^', '&', '*', '(', ')', '_', '+', '-', '=',
   '[', ']', Char.ofNat 123, Char.ofNat 125, ';', Char.ofNat 39, ':',
   Char.ofNat 34, Char.ofNat 92, '|', ',', '.', '<', '>', '/', '?']

/-- `re.search(r'[a-z]', password)` succeeds iff some character of the
string is an ASCII lowercase letter; similarly for the other classes.
`validate_password_strength` from `app/auth.py`: length at least 8 and
one character from each of the four classes, with the source's early
returns. -/
def validate_password_strength (password : String) : Bool :=
  if password.length < 8 then
    false
  else if !password.data.any (fun c => c.isLower) ||
          !password.data.any (fun c => c.isUpper) then
    false
  else if !password.data.any (fun c => c.isDigit) then
    false
  else if !password.data.any (fun c => specialChars.contains c) then
    false
  else
    true

/-! ## Credential Manager: password verification (`verify_password`)

`verify_password` delegates to passlib:
`pwd_context.verify(plain_password, hashed_password)` with
`CryptContext(schemes=["bcrypt"])`.  A stored hash string either parses
as a bcrypt record — a salt together with the digest of the password it
was produced from — or it does not; passlib documents that `verify`
raises a `ValueError` (`UnknownHashError`, "hash could not be
identified") when the hash string matches no configured scheme, and
otherwise returns the boolean outcome of re-hashing the candidate with
the embedded salt and comparing. -/

/-- A string offered to passlib as a stored hash: either a well-formed
bcrypt record (random salt plus the digest determined by the password
that was hashed), or a string that parses as no known scheme. -/
inductive StoredHash where
  | bcryptRecord (salt : Nat) (ofPassword : String)
  | malformed (raw : String)
  deriving DecidableEq, Repr

/-- The error passlib raises from `CryptContext.verify` when the hash
string cannot be identified as any configured scheme (a `ValueError`). -/
inductive PasslibError where
  | unknownHash
  deriving DecidableEq, Repr

/-- `pwd_context.verify(plain, hash)`: re-hash `plain` with the salt
embedded in `hash` and compare — equal exactly when the same password
was hashed; raise `UnknownHashError` when `hash` is malformed. -/
def cryptContextVerify (plain : String) (h : StoredHash) :
    Except PasslibError Bool :=
  match h with
  | .bcryptRecord _ ofPassword => .ok (plain == ofPassword)
  | .malformed _ => .error .unknownHash

/-- `verify_password` from `app/auth.py`: a direct call to
`pwd_context.verify` with no exception handling, so passlib's error
propagates to the caller. -/
def verify_password (plain_password : String) (hashed_password : StoredHash) :
    Except PasslibError Bool :=
  cryptContextVerify plain_password hashed_password

/-! ## Token Service: issuance and verification -/

/-- An encoded JWT string as the verifier sees it: either the encoding
of a claim set signed with some secret under some algorithm, or a string
that does not parse as a JWT at all. -/
inductive TokenStr where
  | encoded (claims : Claims) (secret : String) (alg : String)
  | malformed (raw : String)
  deriving DecidableEq, Repr

/-- The `jose.JWTError` hierarchy, at the granularity `jwt.decode`
raises it: malformed token, signature/algorithm mismatch, expired `exp`,
or an `exp` claim that cannot be coerced to an integer
(`JWTClaimsError`). -/
inductive JWTError where
  | decodeError
  | signatureError
  | expiredSignature
  | claimsError
  deriving DecidableEq, Repr

/-- jose coerces the `exp` claim with Python `int(...)`: an integer is
kept, a string is parsed as a decimal integer if possible. -/
def intOfClaim : ClaimValue → Option Int
  | .num n => some n
  | .str s => s.toInt?

/-- `jose.jwt.decode(token, secret, algorithms)` at wall-clock time
`now`: reject a malformed string; reject when the token's signing secret
differs from `secret` or its algorithm is not in `algorithms` (signature
verification fails); then, when an `exp` claim is present, require it to
be an integer that is not in the past (`exp < now` with zero leeway is
expired); return the payload otherwise. -/
def jwtDecode (tok : TokenStr) (secret : String) (algorithms : List String)
    (now : Int) : Except JWTError Claims :=
  match tok with
  | .malformed _ => .error .decodeError
  | .encoded claims s a =>
    if s == secret && algorithms.contains a then
      match lookupClaim claims "exp" with
      | none => .ok claims
      | some v =>
        match intOfClaim v with
        | none => .error .claimsError
        | some exp =>
          if exp < now then .error .expiredSignature else .ok claims
    else
      .error .signatureError

/-- `jose.jwt.encode(to_encode, secret, algorithm)`: sign the claim set. -/
def jwtEncode (to_encode : Claims) (secret : String) (alg : String) : TokenStr :=
  .encoded to_encode secret alg

/-- Python `expires_delta or timedelta(minutes=30)`: `None` and the
falsy `timedelta(0)` both select the default. -/
def orDefaultDelta (expires_delta : Option Int) (dflt : Int) : Int :=
  match expires_delta with
  | none => dflt
  | some d => if d == 0 then dflt else d

/-- `create_access_token` from `app/auth.py` (value level): copy the
caller's dict, set `exp` to `utcnow() + (expires_delta or 30 minutes)`,
and sign with the process-wide secret and algorithm.  (The heap-level
version `create_access_token_st` below makes the copy explicit.) -/
def create_access_token (data : Claims) (expires_delta : Option Int)
    (now : Int) : TokenStr :=
  let expire :=
    now + orDefaultDelta expires_delta (timedeltaMinutes ACCESS_TOKEN_EXPIRE_MINUTES)
  let to_encode := updateClaim data "exp" (.num expire)
  jwtEncode to_encode SECRET_KEY ALGORITHM

/-- `decode_access_token` from `app/auth.py`: `jwt.decode` under the
process-wide secret and algorithm list, with `except JWTError: return
None` — every decode/crypto fault is caught and becomes the `None`
sentinel. -/
def decode_access_token (token : TokenStr) (now : Int) : Option Claims :=
  match jwtDecode token SECRET_KEY [ALGORITHM] now with
  | .ok payload => some payload
  | .error _ => none

/-! ## Token Service: request authentication and role gates -/

/-- The persisted user row (`app/models.py`, reconstructed from its uses
in `app/main.py` and `app/schemas.py`): primary key, username, stored
password hash, and a role string drawn from "admin"/"user". -/
structure User where
  id : Int
  username : String
  password : StoredHash
  role : String
  deriving DecidableEq, Repr

/-- `fastapi.HTTPException` as raised by this layer: status code,
detail message, and response headers (empty when the source passes
none). -/
structure HTTPError where
  status_code : Nat
  detail : String
  headers : List (String × String)
  deriving DecidableEq, Repr

/-- The single exception object `get_current_user` constructs and raises
on every failure path. -/
def credentials_exception : HTTPError :=
  { status_code := 401
    detail := "Could not validate credentials"
    headers := [("WWW-Authenticate", "Bearer")] }

/-- `get_current_user` from `app/auth.py`.  The bearer token and the
wall clock are explicit; the dependency-injected DB query
`session.exec(select(User).where(User.id == user_id)).first()` is the
explicit lookup parameter `findUserById`, applied to the raw `sub`
claim value exactly as `payload.get("sub")` produced it.  Raising is
`Except.error`. -/
def get_current_user (token : TokenStr) (now : Int)
    (findUserById : ClaimValue → Option User) : Except HTTPError User :=
  match decode_access_token token now with
  | none => .error credentials_exception
  | some payload =>
    match lookupClaim payload "sub" with
    | none => .error credentials_exception
    | some user_id =>
      match findUserById user_id with
      | none => .error credentials_exception
      | some user => .ok user

/-- `require_admin` from `app/auth.py`: 403 unless the freshly loaded
user's role is exactly "admin". -/
def require_admin (user : User) : Except HTTPError User :=
  if user.role != "admin" then
    .error { status_code := 403, detail := "Admin privileges required", headers := [] }
  else
    .ok user

/-- `require_user` from `app/auth.py`: 403 unless the freshly loaded
user's role is "admin" or "user". -/
def require_user (user : User) : Except HTTPError User :=
  if !(user.role == "admin" || user.role == "user") then
    .error { status_code := 403, detail := "User privileges required", headers := [] }
  else
    .ok user

/-- A protected admin-only request: FastAPI resolves
`Depends(get_current_user)` and then runs the gate; the outcome is the
403 gate applied to the freshly looked-up user. -/
def authorizeAdmin (token : TokenStr) (now : Int)
    (findUserById : ClaimValue → Option User) : Except HTTPError User :=
  (get_current_user token now findUserById).bind require_admin

/-- A protected any-authenticated request, analogously through
`require_user`. -/
def authorizeUser (token : TokenStr) (now : Int)
    (findUserById : ClaimValue → Option User) : Except HTTPError User :=
  (get_current_user token now findUserById).bind require_user

/-! ## Heap-level model of `create_access_token`

`create_access_token` receives the caller's dict by reference and runs
`to_encode = data.copy()` before mutating.  To state the frame property
(the caller's dict is not mutated) the dicts live in an explicit store
of references. -/

/-- A reference to a Python dict object. -/
abbrev Ref := Nat

/-- The heap: which dict each live reference currently holds. -/
abbrev Store := List (Ref × Claims)

/-- Dereference (a dangling reference yields the empty dict). -/
def storeGet (σ : Store) (r : Ref) : Claims :=
  match σ with
  | [] => []
  | (r2, d) :: rest => if r2 = r then d else storeGet rest r

/-- Overwrite the dict held at `r` (allocating it if absent). -/
def storeSet (σ : Store) (r : Ref) (d : Claims) : Store :=
  match σ with
  | [] => [(r, d)]
  | (r2, d2) :: rest =>
    if r2 = r then (r, d) :: rest else (r2, d2) :: storeSet rest r d

/-- The largest reference live in the store. -/
def maxKeys (σ : Store) : Nat :=
  (σ.map Prod.fst).foldr (fun a b => max a b) 0

/-- A reference not yet live in the store: one past the largest. -/
def freshRef (σ : Store) : Ref :=
  maxKeys σ + 1

/-- `create_access_token` at the heap level: `data.copy()` allocates a
fresh dict holding the same bindings, `to_encode.update({"exp": expire})`
mutates only that fresh dict, and the copy is what gets signed.  Returns
the final heap together with the encoded token. -/
def create_access_token_st (σ : Store) (dataRef : Ref)
    (expires_delta : Option Int) (now : Int) : Store × TokenStr :=
  let to_encodeRef := freshRef σ
  let σ1 := storeSet σ to_encodeRef (storeGet σ dataRef)
  let expire :=
    now + orDefaultDelta expires_delta (timedeltaMinutes ACCESS_TOKEN_EXPIRE_MINUTES)
  let σ2 := storeSet σ1 to_encodeRef
    (updateClaim (storeGet σ1 to_encodeRef) "exp" (.num expire))
  (σ2, jwtEncode (storeGet σ2 to_encodeRef) SECRET_KEY ALGORITHM)

/-- The effective time-to-live `create_access_token` ends up using. -/
def effectiveTTL (expires_delta : Option Int) : Int :=
  orDefaultDelta expires_delta (timedeltaMinutes ACCESS_TOKEN_EXPIRE_MINUTES)

/-- The expiry condition `jwt.decode` enforces on a signature-valid
token: no `exp` claim, or an integer-coercible `exp` not earlier than
`now`. -/
def expClaimOk (claims : Claims) (now : Int) : Bool :=
  match lookupClaim claims "exp" with
  | none => true
  | some v =>
    match intOfClaim v with
    | none => false
    | some exp => if exp < now then false else true

/-! ## Helper lemmas -/

theorem lookupClaim_updateClaim_self (c : Claims) (k : String) (v : ClaimValue) :
    lookupClaim (updateClaim c k v) k = some v := by
  induction c with
  | nil => simp [updateClaim, lookupClaim]
  | cons hd tl ih =>
    obtain ⟨k2, v2⟩ := hd
    by_cases h : k2 = k <;> simp [updateClaim, lookupClaim, h, ih]

theorem lookupClaim_updateClaim_ne (c : Claims) (k k2 : String) (v : ClaimValue)
    (h : k2 ≠ k) : lookupClaim (updateClaim c k v) k2 = lookupClaim c k2 := by
  have h2 : ¬(k = k2) := fun hh => h hh.symm
  induction c with
  | nil => simp [updateClaim, lookupClaim, h2]
  | cons hd tl ih =>
    obtain ⟨k3, v3⟩ := hd
    by_cases h3 : k3 = k
    · subst h3
      simp [updateClaim, lookupClaim, h2]
    · simp [updateClaim, lookupClaim, h3, ih]

theorem decode_access_token_malformed (raw : String) (now : Int) :
    decode_access_token (.malformed raw) now = none := rfl

theorem decode_access_token_encoded (claims : Claims) (s a : String) (now : Int) :
    decode_access_token (.encoded claims s a) now =
      if s = SECRET_KEY ∧ a = ALGORITHM then
        (if expClaimOk claims now then some claims else none)
      else none := by
  by_cases hs : s = SECRET_KEY
  · by_cases ha : a = ALGORITHM
    · subst hs
      subst ha
      have hcond : (SECRET_KEY == SECRET_KEY && [ALGORITHM].contains ALGORITHM) = true := by
        decide
      rcases ho : lookupClaim claims "exp" with _ | v
      · simp [decode_access_token, jwtDecode, expClaimOk, hcond, ho]
      · rcases hi : intOfClaim v with _ | exp
        · simp [decode_access_token, jwtDecode, expClaimOk, hcond, ho, hi]
        · by_cases hlt : exp < now
          · simp [decode_access_token, jwtDecode, expClaimOk, hcond, ho, hi, hlt]
          · simp [decode_access_token, jwtDecode, expClaimOk, hcond, ho, hi, hlt]
    · have hna : ¬(s = SECRET_KEY ∧ a = ALGORITHM) := fun hc => ha hc.2
      have hb : (a == ALGORITHM) = false := by
        simp only [beq_eq_false_iff_ne, ne_eq]
        exact ha
      have hcf : ([ALGORITHM].contains a) = false := by
        simp [List.contains, List.elem, hb]
      simp [decode_access_token, jwtDecode, hcf, hna]
  · have hna : ¬(s = SECRET_KEY ∧ a = ALGORITHM) := fun hc => hs hc.1
    have hsf : (s == SECRET_KEY) = false := by
      simp only [beq_eq_false_iff_ne, ne_eq]
      exact hs
    simp [decode_access_token, jwtDecode, hsf, hna]

theorem storeGet_storeSet_self (σ : Store) (r : Ref) (d : Claims) :
    storeGet (storeSet σ r d) r = d := by
  induction σ with
  | nil => simp [storeSet, storeGet]
  | cons hd tl ih =>
    obtain ⟨r2, d2⟩ := hd
    by_cases h : r2 = r <;> simp [storeSet, storeGet, h, ih]

theorem storeGet_storeSet_ne (σ : Store) (r r2 : Ref) (d : Claims)
    (h : r ≠ r2) : storeGet (storeSet σ r d) r2 = storeGet σ r2 := by
  induction σ with
  | nil => simp [storeSet, storeGet, h]
  | cons hd tl ih =>
    obtain ⟨r3, d3⟩ := hd
    by_cases h3 : r3 = r
    · subst h3
      simp [storeSet, storeGet, h]
    · simp [storeSet, storeGet, h3, ih]

theorem le_maxKeys_of_mem (σ : Store) (r : Ref) (h : r ∈ σ.map Prod.fst) :
    r ≤ maxKeys σ := by
  induction σ with
  | nil => simp at h
  | cons hd tl ih =>
    simp only [List.map_cons, List.mem_cons] at h
    simp only [maxKeys, List.map_cons, List.foldr_cons] at ih ⊢
    rcases h with h2 | h2
    · subst h2
      exact le_max_left _ _
    · exact le_trans (ih h2) (le_max_right _ _)

theorem ne_freshRef_of_mem (σ : Store) (r : Ref) (h : r ∈ σ.map Prod.fst) :
    r ≠ freshRef σ := by
  have h1 := le_maxKeys_of_mem σ r h
  intro heq
  rw [heq] at h1
  unfold freshRef at h1
  exact Nat.lt_irrefl _ (Nat.lt_of_lt_of_le (Nat.lt_succ_self _) h1)

/-! ## Claim theorems -/

/-- C3: `validate_password_strength p` returns true iff `p` has length
at least 8 and contains at least one lowercase letter, one uppercase
letter, one digit, and one character from the fixed special-character
set; in particular it returns false on "short1!", "NoNumber!" and
"nonumber1", and true on "Valid1Pass!". -/
theorem validate_password_strength_spec :
    (∀ p : String,
      validate_password_strength p = true ↔
        (8 ≤ p.length ∧
          (∃ c ∈ p.data, c.isLower = true) ∧
          (∃ c ∈ p.data, c.isUpper = true) ∧
          (∃ c ∈ p.data, c.isDigit = true) ∧
          (∃ c ∈ p.data, c ∈ specialChars))) ∧
    validate_password_strength "short1!" = false ∧
    validate_password_strength "NoNumber!" = false ∧
    validate_password_strength "nonumber1" = false ∧
    validate_password_strength "Valid1Pass!" = true := by
  refine ⟨fun p => ?_, by decide, by decide, by decide, by decide⟩
  unfold validate_password_strength
  split_ifs with h1 h2 h3 h4
  · simp only [false_iff, not_and]
    intro hl
    omega
  · simp only [Bool.or_eq_true, Bool.not_eq_true', List.any_eq_false] at h2
    simp only [false_iff, not_and]
    intro hl hlow hup
    rcases h2 with h2 | h2
    · obtain ⟨c, hc, hcl⟩ := hlow
      exact absurd hcl (by simp [h2 c hc])
    · obtain ⟨c, hc, hcu⟩ := hup
      exact absurd hcu (by simp [h2 c hc])
  · simp only [Bool.not_eq_true', List.any_eq_false] at h3
    simp only [false_iff, not_and]
    intro hl hlow hup hdig
    obtain ⟨c, hc, hcd⟩ := hdig
    exact absurd hcd (by simp [h3 c hc])
  · simp only [Bool.not_eq_true', List.any_eq_false] at h4
    simp only [false_iff, not_and]
    intro hl hlow hup hdig hsp
    obtain ⟨c, hc, hcs⟩ := hsp
    exact h4 c hc (List.elem_iff.mpr hcs)
  · simp only [not_lt] at h1
    simp only [Bool.not_eq_true, Bool.or_eq_false_iff, Bool.not_eq_false'] at h2 h3 h4
    obtain ⟨hlow, hup⟩ := h2
    rw [List.any_eq_true] at hlow hup h3 h4
    simp only [true_iff]
    obtain ⟨c, hc, hcs⟩ := h4
    exact ⟨h1, hlow, hup, h3, ⟨c, hc, List.elem_iff.mp hcs⟩⟩

/-- C5: the role gates return the principal unchanged when its role is
in the allowed set and otherwise signal 403 "forbidden": `require_admin`
accepts exactly role "admin" and `require_user` exactly roles "admin"
and "user"; concretely the admin-only gate rejects a role-"user"
principal and accepts a role-"admin" one, and the any-authenticated gate
accepts both. -/
theorem require_role_gates_spec :
    (∀ u : User,
      (require_admin u = .ok u ↔ u.role = "admin") ∧
      (require_admin u =
          .error { status_code := 403, detail := "Admin privileges required", headers := [] } ↔
        u.role ≠ "admin") ∧
      (require_user u = .ok u ↔ (u.role = "admin" ∨ u.role = "user")) ∧
      (require_user u =
          .error { status_code := 403, detail := "User privileges required", headers := [] } ↔
        ¬(u.role = "admin" ∨ u.role = "user"))) ∧
    require_admin { id := 1, username := "u1", password := .malformed "x", role := "user" } =
      .error { status_code := 403, detail := "Admin privileges required", headers := [] } ∧
    require_admin { id := 2, username := "u2", password := .malformed "x", role := "admin" } =
      .ok { id := 2, username := "u2", password := .malformed "x", role := "admin" } ∧
    require_user { id := 1, username := "u1", password := .malformed "x", role := "user" } =
      .ok { id := 1, username := "u1", password := .malformed "x", role := "user" } ∧
    require_user { id := 2, username := "u2", password := .malformed "x", role := "admin" } =
      .ok { id := 2, username := "u2", password := .malformed "x", role := "admin" } := by
  refine ⟨fun u => ?_, rfl, rfl, rfl, rfl⟩
  by_cases h : u.role = "admin"
  · simp [require_admin, require_user, h]
  · by_cases h2 : u.role = "user"
    · simp [require_admin, require_user, bne_iff_ne, beq_iff_eq, h, h2]
    · simp [require_admin, require_user, bne_iff_ne, beq_iff_eq, h, h2]

/-- C7 counterexample: on a malformed stored hash, `verify_password`
propagates passlib's `UnknownHashError` to the caller instead of
returning false. -/
theorem verify_password_malformed_cex :
    verify_password "CorrectHorse1!" (.malformed "not-a-bcrypt-hash") =
      .error .unknownHash ∧
    verify_password "CorrectHorse1!" (.malformed "not-a-bcrypt-hash") ≠
      .ok false :=
  ⟨rfl, fun h => nomatch h⟩

/-- C7 amended: `verify_password` returns the boolean comparison outcome
(and never raises) on every well-formed stored hash, but on a malformed
stored hash it raises passlib's `UnknownHashError` (a `ValueError`)
rather than returning false. -/
theorem verify_password_spec :
    (∀ (p pw : String) (salt : Nat),
      verify_password p (.bcryptRecord salt pw) = .ok (p == pw)) ∧
    (∀ (p raw : String),
      verify_password p (.malformed raw) = .error .unknownHash) :=
  ⟨fun _ _ _ => rfl, fun _ _ => rfl⟩

/-- C1: `decode_access_token` is total — every `JWTError` is caught and
becomes the `none` sentinel — and it returns the decoded claim set
exactly when the token is a well-formed encoding signed with the
process-wide secret under the configured algorithm whose `exp` claim (if
any) is an integer not in the past; on malformed encoding, signature or
algorithm mismatch, or an expired or ill-typed `exp` it returns
`none`. -/
theorem decode_access_token_total_spec :
    ∀ (tok : TokenStr) (now : Int),
      (∀ claims : Claims,
        decode_access_token tok now = some claims ↔
          (tok = .encoded claims SECRET_KEY ALGORITHM ∧
            expClaimOk claims now = true)) ∧
      (decode_access_token tok now = none ↔
        ∀ claims : Claims,
          ¬(tok = .encoded claims SECRET_KEY ALGORITHM ∧
              expClaimOk claims now = true)) := by
  intro tok now
  cases tok with
  | malformed raw =>
    constructor
    · intro claims
      simp [decode_access_token_malformed]
    · simp [decode_access_token_malformed]
  | encoded c s a =>
    rw [decode_access_token_encoded]
    by_cases hc : s = SECRET_KEY ∧ a = ALGORITHM
    · obtain ⟨hs, ha⟩ := hc
      subst hs
      subst ha
      rw [if_pos ⟨rfl, rfl⟩]
      by_cases he : expClaimOk c now = true
      · constructor
        · intro claims
          simp only [he, if_true, Option.some_inj, TokenStr.encoded.injEq,
            and_true, true_and]
          constructor
          · intro h
            subst h
            exact ⟨rfl, he⟩
          · rintro ⟨h, -⟩
            subst h
            rfl
        · simp only [he, if_true]
          constructor
          · intro h
            cases h
          · intro hall
            exact absurd ⟨rfl, he⟩ (hall c)
      · rw [if_neg he]
        constructor
        · intro claims
          simp only [TokenStr.encoded.injEq, and_true, true_and]
          constructor
          · intro h
            cases h
          · rintro ⟨heq, hok⟩
            subst heq
            exact absurd hok he
        · constructor
          · intro h claims
            rintro ⟨heq, hok⟩
            injection heq with h1 h2 h3
            subst h1
            exact absurd hok he
          · intro hall
            rfl
    · rw [if_neg hc]
      constructor
      · intro claims
        constructor
        · intro h
          cases h
        · rintro ⟨heq, hok⟩
          injection heq with h1 h2 h3
          exact absurd ⟨h2, h3⟩ hc
      · constructor
        · intro h claims
          rintro ⟨heq, hok⟩
          injection heq with h1 h2 h3
          exact absurd ⟨h2, h3⟩ hc
        · intro hall
          rfl

/-- C2: `get_current_user` signals "unauthenticated" (raises the 401
exception) iff token verification returns the invalid sentinel, or the
decoded claims lack a "sub" entry, or the lookup by the subject id
returns no principal; otherwise it returns the looked-up principal. -/
theorem get_current_user_spec :
    ∀ (tok : TokenStr) (now : Int) (findUserById : ClaimValue → Option User),
      ((∃ e, get_current_user tok now findUserById = .error e) ↔
        (decode_access_token tok now = none ∨
          (∃ p, decode_access_token tok now = some p ∧
            lookupClaim p "sub" = none) ∨
          (∃ p s, decode_access_token tok now = some p ∧
            lookupClaim p "sub" = some s ∧ findUserById s = none))) ∧
      (∀ u : User,
        get_current_user tok now findUserById = .ok u ↔
          (∃ p s, decode_access_token tok now = some p ∧
            lookupClaim p "sub" = some s ∧ findUserById s = some u)) := by
  intro tok now f
  rcases hd : decode_access_token tok now with _ | p
  · constructor
    · simp [get_current_user, hd]
    · intro u
      simp [get_current_user, hd]
  · rcases hsub : lookupClaim p "sub" with _ | s
    · constructor
      · simp [get_current_user, hd, hsub]
      · intro u
        simp [get_current_user, hd, hsub]
    · rcases hf : f s with _ | u0
      · constructor
        · simp [get_current_user, hd, hsub, hf]
        · intro u
          simp [get_current_user, hd, hsub, hf]
      · constructor
        · simp [get_current_user, hd, hsub, hf]
        · intro u
          simp [get_current_user, hd, hsub, hf]

/-- C9: every failure path of `get_current_user` — invalid token,
missing "sub" claim, or no user found for the subject id — raises the
identical exception: status 401, detail "Could not validate
credentials", and a WWW-Authenticate: Bearer header, so the caller
cannot distinguish which check failed. -/
theorem get_current_user_error_uniform :
    ∀ (tok : TokenStr) (now : Int) (findUserById : ClaimValue → Option User)
      (e : HTTPError),
      get_current_user tok now findUserById = .error e →
      e = credentials_exception ∧
      e.status_code = 401 ∧
      e.detail = "Could not validate credentials" ∧
      e.headers = [("WWW-Authenticate", "Bearer")] := by
  intro tok now f e h
  have he : e = credentials_exception := by
    rcases hd : decode_access_token tok now with _ | p
    · simp only [get_current_user, hd, Except.error.injEq] at h
      exact h.symm
    · rcases hsub : lookupClaim p "sub" with _ | s
      · simp only [get_current_user, hd, hsub, Except.error.injEq] at h
        exact h.symm
      · rcases hf : f s with _ | u0
        · simp only [get_current_user, hd, hsub, hf, Except.error.injEq] at h
          exact h.symm
        · simp only [get_current_user, hd, hsub, hf] at h
          exact absurd h (fun hh => nomatch hh)
  subst he
  exact ⟨rfl, rfl, rfl, rfl⟩

/-- Witness for C9 at a concrete failing input: a malformed bearer
token yields exactly the credentials exception. -/
theorem get_current_user_error_uniform_witness :
    credentials_exception = credentials_exception ∧
    credentials_exception.status_code = 401 ∧
    credentials_exception.detail = "Could not validate credentials" ∧
    credentials_exception.headers = [("WWW-Authenticate", "Bearer")] :=
  get_current_user_error_uniform (.malformed "not-a-jwt") 0 (fun _ => none)
    credentials_exception rfl

/-- C4: a token whose `exp` is in the past is rejected by verification
even though it is signed with the process secret and algorithm, and a
token signed with a different secret is rejected whatever its claims
say. -/
theorem token_rejection_spec :
    (∀ (claims : Claims) (v : ClaimValue) (exp now : Int),
      lookupClaim claims "exp" = some v → intOfClaim v = some exp →
      exp < now →
      decode_access_token (.encoded claims SECRET_KEY ALGORITHM) now = none) ∧
    (∀ (claims : Claims) (s a : String) (now : Int),
      s ≠ SECRET_KEY →
      decode_access_token (.encoded claims s a) now = none) := by
  constructor
  · intro claims v exp now hv hi hlt
    have hfalse : expClaimOk claims now = false := by
      simp [expClaimOk, hv, hi, hlt]
    rw [decode_access_token_encoded, if_pos ⟨rfl, rfl⟩, hfalse]
    simp
  · intro claims s a now hs
    rw [decode_access_token_encoded, if_neg (fun hc => hs hc.1)]

/-- Witness for C4: a token that expired at time 5 is rejected at time
10, and a token signed with "attacker-secret" is rejected. -/
theorem token_rejection_spec_witness :
    decode_access_token
      (.encoded [("exp", .num 5)] SECRET_KEY ALGORITHM) 10 = none ∧
    decode_access_token
      (.encoded [("sub", .str "1")] "attacker-secret" ALGORITHM) 0 = none :=
  ⟨token_rejection_spec.1 [("exp", .num 5)] (.num 5) 5 10 rfl rfl (by decide),
   token_rejection_spec.2 [("sub", .str "1")] "attacker-secret" ALGORITHM 0
     (by decide)⟩

/-- C6 counterexample: with an explicitly zero ttl, Python's
`expires_delta or timedelta(minutes=30)` treats the zero `timedelta` as
falsy and selects the 30-minute default, so at time 0 the issued
token's expiry claim is 1800, not `now + ttl = 0`. -/
theorem create_access_token_zero_ttl_cex :
    create_access_token [("sub", .str "1"), ("role", .str "user")] (some 0) 0 =
      .encoded [("sub", .str "1"), ("role", .str "user"), ("exp", .num 1800)]
        SECRET_KEY ALGORITHM ∧
    ClaimValue.num 1800 ≠ ClaimValue.num (0 + 0) := by
  exact ⟨rfl, by decide⟩

/-- C6 amended: `create_access_token` produces a token whose claims are
the caller's claims (the stringified subject id and role in the login
flow, preserved verbatim) plus an absolute expiry `now + ttl`, where the
effective ttl is the supplied ttl when nonzero and the 30-minute default
when it is omitted or zero (Python `or` treats a zero `timedelta` as
absent); provided the effective ttl is nonnegative, immediately
verifying the token returns exactly those claims with that expiry. -/
theorem issue_verify_roundtrip :
    ∀ (data : Claims) (expires_delta : Option Int) (now : Int),
      0 ≤ effectiveTTL expires_delta →
      (create_access_token data expires_delta now =
        .encoded
          (updateClaim data "exp" (.num (now + effectiveTTL expires_delta)))
          SECRET_KEY ALGORITHM) ∧
      (decode_access_token (create_access_token data expires_delta now) now =
        some (updateClaim data "exp"
          (.num (now + effectiveTTL expires_delta)))) ∧
      effectiveTTL none = timedeltaMinutes 30 ∧
      (lookupClaim
          (updateClaim data "exp" (.num (now + effectiveTTL expires_delta)))
          "exp" =
        some (.num (now + effectiveTTL expires_delta))) ∧
      (∀ k, k ≠ "exp" →
        lookupClaim
            (updateClaim data "exp" (.num (now + effectiveTTL expires_delta)))
            k =
          lookupClaim data k) := by
  intro data delta now h
  have henc : create_access_token data delta now =
      .encoded (updateClaim data "exp" (.num (now + effectiveTTL delta)))
        SECRET_KEY ALGORITHM := rfl
  refine ⟨henc, ?_, rfl, lookupClaim_updateClaim_self _ _ _,
    fun k hk => lookupClaim_updateClaim_ne _ _ _ _ hk⟩
  rw [henc, decode_access_token_encoded, if_pos ⟨rfl, rfl⟩]
  have hok : expClaimOk
      (updateClaim data "exp" (.num (now + effectiveTTL delta))) now = true := by
    simp only [expClaimOk, lookupClaim_updateClaim_self, intOfClaim,
      ite_eq_right_iff]
    intro hlt
    omega
  rw [hok]
  simp

/-- Witness for C6 amended: issuing at time 100 with the ttl omitted and
verifying at the same instant yields the sub and role claims plus the
expiry 100 + 1800. -/
theorem issue_verify_roundtrip_witness :
    decode_access_token
      (create_access_token [("sub", .str "7"), ("role", .str "admin")] none 100)
      100 =
      some [("sub", .str "7"), ("role", .str "admin"), ("exp", .num 1900)] := by
  have h :=
    (issue_verify_roundtrip [("sub", .str "7"), ("role", .str "admin")] none 100
      (by decide)).2.1
  exact h.trans (by decide)

/-- C8: the authorization outcome of both role gates depends only on the
principal freshly looked up from storage by the token's "sub" claim,
never on the "role" claim embedded in the token: any two valid tokens
with the same subject claim — in particular ones carrying different role
claims — produce identical outcomes under the admin-only and the
any-authenticated gate. -/
theorem authorization_ignores_token_role :
    ∀ (c1 c2 : Claims) (now : Int) (findUserById : ClaimValue → Option User),
      decode_access_token (.encoded c1 SECRET_KEY ALGORITHM) now = some c1 →
      decode_access_token (.encoded c2 SECRET_KEY ALGORITHM) now = some c2 →
      lookupClaim c1 "sub" = lookupClaim c2 "sub" →
      (authorizeAdmin (.encoded c1 SECRET_KEY ALGORITHM) now findUserById =
        authorizeAdmin (.encoded c2 SECRET_KEY ALGORITHM) now findUserById) ∧
      (authorizeUser (.encoded c1 SECRET_KEY ALGORITHM) now findUserById =
        authorizeUser (.encoded c2 SECRET_KEY ALGORITHM) now findUserById) := by
  intro c1 c2 now f h1 h2 hsub
  have hg : get_current_user (.encoded c1 SECRET_KEY ALGORITHM) now f =
      get_current_user (.encoded c2 SECRET_KEY ALGORITHM) now f := by
    simp only [get_current_user, h1, h2, hsub]
  exact ⟨by simp only [authorizeAdmin, hg], by simp only [authorizeUser, hg]⟩

/-- Witness for C8: two tokens for subject "1", one claiming role
"admin" and the other role "user", evaluated against a store where user
1 actually has role "user", yield identical outcomes under both
gates. -/
theorem authorization_ignores_token_role_witness :
    (authorizeAdmin
        (.encoded [("sub", .str "1"), ("role", .str "admin"), ("exp", .num 100)]
          SECRET_KEY ALGORITHM) 50
        (fun v => if v = .str "1" then
          some { id := 1, username := "alice", password := .malformed "x",
                 role := "user" }
          else none) =
      authorizeAdmin
        (.encoded [("sub", .str "1"), ("role", .str "user"), ("exp", .num 100)]
          SECRET_KEY ALGORITHM) 50
        (fun v => if v = .str "1" then
          some { id := 1, username := "alice", password := .malformed "x",
                 role := "user" }
          else none)) ∧
    (authorizeUser
        (.encoded [("sub", .str "1"), ("role", .str "admin"), ("exp", .num 100)]
          SECRET_KEY ALGORITHM) 50
        (fun v => if v = .str "1" then
          some { id := 1, username := "alice", password := .malformed "x",
                 role := "user" }
          else none) =
      authorizeUser
        (.encoded [("sub", .str "1"), ("role", .str "user"), ("exp", .num 100)]
          SECRET_KEY ALGORITHM) 50
        (fun v => if v = .str "1" then
          some { id := 1, username := "alice", password := .malformed "x",
                 role := "user" }
          else none)) :=
  authorization_ignores_token_role
    [("sub", .str "1"), ("role", .str "admin"), ("exp", .num 100)]
    [("sub", .str "1"), ("role", .str "user"), ("exp", .num 100)]
    50
    (fun v => if v = .str "1" then
      some { id := 1, username := "alice", password := .malformed "x",
             role := "user" }
      else none)
    rfl rfl rfl

/-- C10: `create_access_token` does not mutate the claim dict passed by
its caller: after the heap-level run the dict at `dataRef` is unchanged
(in particular it gains no "exp" entry), because the update hits only
the fresh copy made by `data.copy()`; the signed token is exactly the
pure function's value on the caller's claims. -/
theorem create_access_token_frame :
    ∀ (σ : Store) (dataRef : Ref) (expires_delta : Option Int) (now : Int),
      dataRef ∈ σ.map Prod.fst →
      storeGet (create_access_token_st σ dataRef expires_delta now).1 dataRef =
        storeGet σ dataRef ∧
      (create_access_token_st σ dataRef expires_delta now).2 =
        create_access_token (storeGet σ dataRef) expires_delta now := by
  intro σ r delta now hmem
  have hne : freshRef σ ≠ r := fun hh => ne_freshRef_of_mem σ r hmem hh.symm
  constructor
  · simp only [create_access_token_st]
    rw [storeGet_storeSet_ne _ _ _ _ hne, storeGet_storeSet_ne _ _ _ _ hne]
  · simp only [create_access_token_st, create_access_token, jwtEncode]
    rw [storeGet_storeSet_self, storeGet_storeSet_self]

/-- Witness for C10: a one-dict heap holding the login claims at
reference 0 is unchanged at reference 0 by issuing a token from it. -/
theorem create_access_token_frame_witness :
    storeGet
      (create_access_token_st [(0, [("sub", ClaimValue.str "1")])] 0 none 0).1
      0 =
      storeGet [(0, [("sub", ClaimValue.str "1")])] 0 ∧
    (create_access_token_st [(0, [("sub", ClaimValue.str "1")])] 0 none 0).2 =
      create_access_token (storeGet [(0, [("sub", ClaimValue.str "1")])] 0)
        none 0 :=
  create_access_token_frame [(0, [("sub", ClaimValue.str "1")])] 0 none 0
    (by decide)

end AuthApp
